import Mathlib

/-!
Shallow embedding, in Lean, of the benchmarking harness in `src/main.ts`
(the navcat vs recast-navigation-js benchmark page).

Modelling conventions:
* JavaScript numbers (IEEE doubles) are modelled as exact rationals `ℚ`;
  the special values `NaN`, `Infinity`, `-Infinity` and the `undefined`
  produced by out-of-range array indexing are modelled by the dedicated
  constructors of `JSNum`.  `Math.sqrt` lands in `JSRNum`, whose finite
  values are reals, since square roots of rationals are irrational in
  general.  (Signed zero is not modelled: `ℚ` has a single zero.  No
  division in the embedded code ever divides by a negative zero.)
* Side-effecting zero-argument functions (the `fn` passed to `benchmark`,
  which communicates through captured outer variables) are modelled by
  explicit state passing: `fn : σ → σ` for an abstract state type `σ`.
* `performance.now()` is modelled by an oracle `perfNow : ℕ → ℚ` giving
  the value returned by the k-th call to the clock inside the timed loop.
* The two navmesh backends are opaque external services; their build and
  query entry points are oracle parameters.  An oracle may additionally
  depend on the invocation index `ℕ`, modelling that repeated calls of a
  nondeterministic external service may yield different results.
-/

/-- JavaScript runtime values that can flow through the statistics code of
`benchmark`: a finite number (modelled exactly as a rational), `NaN`, the
two infinities, and the `undefined` produced by indexing an array out of
range. -/
inductive JSNum where
  | num (q : ℚ)
  | nan
  | inf
  | ninf
  | jsUndefined
deriving DecidableEq, Repr

/-- JavaScript `+` on the values of `JSNum`.  `NaN` and `undefined`
propagate as `NaN`; opposite infinities give `NaN`. -/
def JSNum.add : JSNum → JSNum → JSNum
  | .num a, .num b => .num (a + b)
  | .inf, .inf => .inf
  | .inf, .num _ => .inf
  | .num _, .inf => .inf
  | .ninf, .ninf => .ninf
  | .ninf, .num _ => .ninf
  | .num _, .ninf => .ninf
  | _, _ => .nan

/-- JavaScript binary `-` on the values of `JSNum`. -/
def JSNum.sub : JSNum → JSNum → JSNum
  | .num a, .num b => .num (a - b)
  | .inf, .num _ => .inf
  | .num _, .inf => .ninf
  | .ninf, .num _ => .ninf
  | .num _, .ninf => .inf
  | .inf, .ninf => .inf
  | .ninf, .inf => .ninf
  | _, _ => .nan

/-- JavaScript `*` on the values of `JSNum`.  Zero times an infinity is
`NaN`. -/
def JSNum.mul : JSNum → JSNum → JSNum
  | .num a, .num b => .num (a * b)
  | .inf, .inf => .inf
  | .inf, .ninf => .ninf
  | .ninf, .inf => .ninf
  | .ninf, .ninf => .inf
  | .inf, .num b => if b = 0 then .nan else if 0 < b then .inf else .ninf
  | .num a, .inf => if a = 0 then .nan else if 0 < a then .inf else .ninf
  | .ninf, .num b => if b = 0 then .nan else if 0 < b then .ninf else .inf
  | .num a, .ninf => if a = 0 then .nan else if 0 < a then .ninf else .inf
  | _, _ => .nan

/-- JavaScript `/` on the values of `JSNum`.  `0 / 0` is `NaN`; a nonzero
finite numerator over zero gives a signed infinity (signed zero is not
modelled, see the header); an infinity over an infinity is `NaN`. -/
def JSNum.div : JSNum → JSNum → JSNum
  | .num a, .num b =>
      if b = 0 then (if a = 0 then .nan else if 0 < a then .inf else .ninf)
      else .num (a / b)
  | .num _, .inf => .num 0
  | .num _, .ninf => .num 0
  | .inf, .num b => if 0 ≤ b then .inf else .ninf
  | .ninf, .num b => if 0 ≤ b then .ninf else .inf
  | _, _ => .nan

/-- JavaScript array indexing `arr[i]` on an array of numbers: the element
when `0 ≤ i < arr.length`, and `undefined` otherwise. -/
def jsIdx (l : List ℚ) (i : ℤ) : JSNum :=
  if h : 0 ≤ i ∧ i.toNat < l.length then .num (l.get ⟨i.toNat, h.2⟩) else .jsUndefined

/-- Values produced by `Math.sqrt`: a finite real, `NaN`, or `Infinity`. -/
inductive JSRNum where
  | num (x : ℝ)
  | nan
  | inf

/-- JavaScript `Math.sqrt` on the values of `JSNum`: the real square root
of a nonnegative finite number, `NaN` on negative numbers, `NaN` and
`undefined`, `Infinity` on `Infinity`. -/
noncomputable def jsSqrt : JSNum → JSRNum
  | .num q => if q < 0 then .nan else .num (Real.sqrt q)
  | .inf => .inf
  | _ => .nan

/-- The ascending numeric sort `[...times].sort((a, b) => a - b)` used by
`benchmark`.  Any correct ascending sort produces the same list (a sorted
permutation of a list is unique), so it is modelled by insertion sort. -/
def sortNumbersAsc (l : List ℚ) : List ℚ :=
  List.insertionSort (· ≤ ·) l

/-- The `BenchmarkResult` record type of `src/main.ts` (lines 11-21).
`times` holds the measured iteration times in execution order. -/
structure BenchmarkResult where
  name : String
  warmupRuns : ℕ
  runs : ℕ
  times : List ℚ
  mean : JSNum
  median : JSNum
  min : JSNum
  max : JSNum
  stdDev : JSRNum

/-- The warmup loop of `benchmark` (lines 89-91): `fn` is executed
`warmupRuns` times with no timing. -/
def warmupLoop {σ : Type*} (fn : σ → σ) : ℕ → σ → σ
  | 0, s => s
  | n + 1, s => warmupLoop fn n (fn s)

/-- The measured loop of `benchmark` (lines 95-101): `n` remaining
iterations, `i` the index of the current iteration (used to address the
`perfNow` clock oracle: the i-th iteration reads the clock at positions
`2*i` and `2*i+1` around the single invocation of `fn`).  Returns the
recorded times, in execution order, together with the final state. -/
def timedLoop {σ : Type*} (fn : σ → σ) (perfNow : ℕ → ℚ) :
    ℕ → ℕ → σ → List ℚ × σ
  | 0, _, s => ([], s)
  | n + 1, i, s =>
      let tStart := perfNow (2 * i)
      let s1 := fn s
      let tStop := perfNow (2 * i + 1)
      let rest := timedLoop fn perfNow n (i + 1) s1
      ((tStop - tStart) :: rest.1, rest.2)

/-- The `benchmark` function of `src/main.ts` (lines 81-125).  The source
defaults are `warmupRuns = 3`, `runs = 10`; call sites of the embedding
pass them explicitly.  Returns the `BenchmarkResult` together with the
final state produced by the repeated invocations of `fn`. -/
noncomputable def benchmark {σ : Type*} (name : String) (fn : σ → σ)
    (warmupRuns : ℕ) (runs : ℕ) (perfNow : ℕ → ℚ) (s0 : σ) :
    BenchmarkResult × σ :=
  let s1 := warmupLoop fn warmupRuns s0
  let tl := timedLoop fn perfNow runs 0 s1
  let times := tl.1
  let sorted := sortNumbersAsc times
  let mean := JSNum.div (.num (times.foldl (· + ·) 0)) (.num (times.length : ℚ))
  let median := jsIdx sorted ((sorted.length : ℤ) / 2)
  let minV := jsIdx sorted 0
  let maxV := jsIdx sorted ((sorted.length : ℤ) - 1)
  let variance := JSNum.div
      (times.foldl
        (fun sum t => sum.add (((JSNum.num t).sub mean).mul ((JSNum.num t).sub mean)))
        (.num 0))
      (.num (times.length : ℚ))
  let stdDev := jsSqrt variance
  (⟨name, warmupRuns, runs, times, mean, median, minV, maxV, stdDev⟩, tl.2)

/-- A world-space position triple. -/
abbrev Vec3 := ℚ × ℚ × ℚ

/-- The data carried by a mesh node of the scene graph, as read by
`gatherTrianglesFromScene` (lines 140-145): the local vertex positions of
`geometry.attributes.position`, the optional index list `geometry.index`,
and the node's accumulated world transform `matrixWorld` (modelled as the
function it applies to a position, i.e. `vec.applyMatrix4(worldMatrix)`). -/
structure MeshData where
  position : List Vec3
  index : Option (List ℕ)
  matrixWorld : Vec3 → Vec3

/-- A scene-graph node: optional mesh data (`none` models a non-mesh node,
for which `child.isMesh` is false) and the node's children.  `traverse`
visits a node before its children, siblings in stored order. -/
inductive Obj where
  | mk (meshData : Option MeshData) (children : List Obj)

/-- The running state of `gatherTrianglesFromScene`: the flat `positions`
array (three numbers per vertex), the `indices` array, and the running
`vertexOffset` (lines 135-137). -/
structure GatherState where
  positions : List ℚ
  indices : List ℕ
  vertexOffset : ℕ

/-- Processing of one mesh node (lines 147-169): append the transformed
vertices, append its indices offset by the running vertex count (absent
indices are synthesized as `0..vertexCount-1`), bump the offset. -/
def processMesh (m : MeshData) (st : GatherState) : GatherState :=
  ⟨st.positions ++
      (m.position.map (fun v =>
        let w := m.matrixWorld v
        [w.1, w.2.1, w.2.2])).flatten,
    st.indices ++
      (match m.index with
        | some idx => idx.map (· + st.vertexOffset)
        | none => (List.range m.position.length).map (· + st.vertexOffset)),
    st.vertexOffset + m.position.length⟩

/-- The per-node step of the traversal callback (line 140): mesh nodes are
processed, non-mesh nodes are skipped. -/
def processNode (meshData : Option MeshData) (st : GatherState) : GatherState :=
  match meshData with
  | some m => processMesh m st
  | none => st

mutual

/-- Pre-order traversal of one node: the node itself, then its children
(`object.traverse` semantics, line 139). -/
def gatherObj : Obj → GatherState → GatherState
  | .mk meshData children, st => gatherList children (processNode meshData st)

/-- Pre-order traversal of a sibling list, in stored order. -/
def gatherList : List Obj → GatherState → GatherState
  | [], st => st
  | o :: os, st => gatherList os (gatherObj o st)

end

/-- The `gatherTrianglesFromScene` function of `src/main.ts` (lines
134-177): traverse the scene from an empty state and return the flat
positions and indices buffers.  (The source packages them as a
`Float32Array` and a `Uint32Array`; the numeric contents are modelled
exactly.) -/
def gatherTrianglesFromScene (o : Obj) : List ℚ × List ℕ :=
  let st := gatherObj o ⟨[], [], 0⟩
  (st.positions, st.indices)

/-- Well-formedness of one node's mesh data, from the data-model invariant
of the spec: an explicit index list only references existing local
vertices and has a length that is a multiple of three; a mesh without an
index list has a vertex count that is a multiple of three. -/
def meshWfB (meshData : Option MeshData) : Bool :=
  match meshData with
  | none => true
  | some m =>
      match m.index with
      | some idx => idx.all (fun e => e < m.position.length) && idx.length % 3 = 0
      | none => m.position.length % 3 = 0

mutual

/-- Every mesh node in the scene graph is well-formed (`meshWfB`). -/
def Obj.wfB : Obj → Bool
  | .mk meshData children => meshWfB meshData && Obj.wfListB children

/-- Every mesh node in a sibling forest is well-formed. -/
def Obj.wfListB : List Obj → Bool
  | [] => true
  | o :: os => Obj.wfB o && Obj.wfListB os

end

/-- The canonical `GenerationOptions` record of `src/main.ts` (lines
47-65); every field is a JavaScript number. -/
structure GenerationOptions where
  cellSize : ℚ
  cellHeight : ℚ
  walkableRadiusVoxels : ℚ
  walkableRadiusWorld : ℚ
  walkableClimbVoxels : ℚ
  walkableClimbWorld : ℚ
  walkableHeightVoxels : ℚ
  walkableHeightWorld : ℚ
  walkableSlopeAngleDegrees : ℚ
  borderSize : ℚ
  minRegionArea : ℚ
  mergeRegionArea : ℚ
  maxSimplificationError : ℚ
  maxEdgeLength : ℚ
  maxVerticesPerPoly : ℚ
  detailSampleDistance : ℚ
  detailSampleMaxError : ℚ

/-- The `createGenerationOptions` function (lines 262-288), with
`Math.ceil` modelled by the integer ceiling on rationals. -/
def createGenerationOptions : GenerationOptions :=
  let cellSize : ℚ := 0.15
  let cellHeight : ℚ := 0.3
  let walkableClimbWorld : ℚ := 0.5
  let walkableHeightWorld : ℚ := 1.0
  let walkableRadiusWorld : ℚ := 0.2
  ⟨cellSize, cellHeight,
    ((Int.ceil (walkableRadiusWorld / cellHeight) : ℤ) : ℚ), walkableRadiusWorld,
    ((Int.ceil (walkableClimbWorld / cellHeight) : ℤ) : ℚ), walkableClimbWorld,
    ((Int.ceil (walkableHeightWorld / cellHeight) : ℤ) : ℚ), walkableHeightWorld,
    45, 0, 8, 20, 1.3, 6.0, 6, 5.0, 1.3⟩

/-- The option record handed to the recast backend (lines 300-315),
field for field. -/
structure RecastOptions where
  cs : ℚ
  ch : ℚ
  walkableRadius : ℚ
  walkableClimb : ℚ
  walkableHeight : ℚ
  walkableSlopeAngle : ℚ
  borderSize : ℚ
  minRegionArea : ℚ
  mergeRegionArea : ℚ
  maxSimplificationError : ℚ
  maxEdgeLen : ℚ
  maxVertsPerPoly : ℚ
  detailSampleDist : ℚ
  detailSampleMaxError : ℚ

/-- The adapter building `recastOptions` from the canonical options
(lines 300-315): every field is passed through unchanged. -/
def recastOptionsOf (o : GenerationOptions) : RecastOptions :=
  ⟨o.cellSize, o.cellHeight, o.walkableRadiusVoxels, o.walkableClimbVoxels,
    o.walkableHeightVoxels, o.walkableSlopeAngleDegrees, o.borderSize,
    o.minRegionArea, o.mergeRegionArea, o.maxSimplificationError,
    o.maxEdgeLength, o.maxVerticesPerPoly, o.detailSampleDistance,
    o.detailSampleMaxError⟩

/-- The option record handed to the navcat backend (lines 338-356),
field for field. -/
structure NavcatOptions where
  cellSize : ℚ
  cellHeight : ℚ
  walkableRadiusVoxels : ℚ
  walkableRadiusWorld : ℚ
  walkableClimbVoxels : ℚ
  walkableClimbWorld : ℚ
  walkableHeightVoxels : ℚ
  walkableHeightWorld : ℚ
  walkableSlopeAngleDegrees : ℚ
  borderSize : ℚ
  minRegionArea : ℚ
  mergeRegionArea : ℚ
  maxSimplificationError : ℚ
  maxEdgeLength : ℚ
  maxVerticesPerPoly : ℚ
  detailSampleDistance : ℚ
  detailSampleMaxError : ℚ

/-- The adapter building `navcatOptions` from the canonical options
(lines 338-356): the region areas are squared and the detail sampling
parameters are scaled by the cell dimensions (these transforms mirror
what recast's `generateSoloNavMesh` does internally); every other field
is passed through unchanged. -/
def navcatOptionsOf (o : GenerationOptions) : NavcatOptions :=
  ⟨o.cellSize, o.cellHeight, o.walkableRadiusVoxels, o.walkableRadiusWorld,
    o.walkableClimbVoxels, o.walkableClimbWorld, o.walkableHeightVoxels,
    o.walkableHeightWorld, o.walkableSlopeAngleDegrees, o.borderSize,
    o.minRegionArea * o.minRegionArea, o.mergeRegionArea * o.mergeRegionArea,
    o.maxSimplificationError, o.maxEdgeLength, o.maxVerticesPerPoly,
    o.cellSize * o.detailSampleDistance, o.cellHeight * o.detailSampleMaxError⟩

/-- The result of one call of navcat's `generateSoloNavMesh` as consumed
by the harness (lines 358-360).  The fields are `Option`s because the
harness initializes its capture slots with `null!` and never checks them:
at runtime the slots can hold null. -/
structure NavcatGenResult (NHandle Inter : Type*) where
  navMesh : Option NHandle
  intermediates : Option Inter

/-- The `GenerationResults` record (lines 32-38).  `recastNav` is a plain
handle (the harness null-checks it before building the record);
`navcatNav` and `navcatIntermediates` keep their unchecked runtime
`Option` type. -/
structure GenerationResults (NHandle Inter RHandle : Type*) where
  navcatNav : Option NHandle
  navcatIntermediates : Option Inter
  navcatGenTime : BenchmarkResult
  recastNav : RHandle
  recastGenTime : BenchmarkResult

/-- The `benchmarkGeneration` function (lines 290-372).  The two backend
build entry points are oracles receiving the triangle buffer, the adapted
options, and the invocation index; the state threaded through `benchmark`
is the pair of the invocation counter and the capture slot, modelling the
mutable outer variables `recastNav` / `navcatNav`-`navcatIntermediates`.
A missing recast handle after the benchmark throws (modelled by
`Except.error`); the navcat slots are returned unchecked. -/
noncomputable def benchmarkGeneration {NHandle Inter RHandle : Type*}
    (positions : List ℚ) (indices : List ℕ) (options : GenerationOptions)
    (recastGen : List ℚ → List ℕ → RecastOptions → ℕ → Option RHandle)
    (navcatGen : List ℚ × List ℕ → NavcatOptions → ℕ → NavcatGenResult NHandle Inter)
    (perfNowRecast perfNowNavcat : ℕ → ℚ) :
    Except String (GenerationResults NHandle Inter RHandle) :=
  let recastOptions := recastOptionsOf options
  let recastRun := benchmark "recast generation"
      (fun st : ℕ × Option RHandle => (st.1 + 1, recastGen positions indices recastOptions st.1))
      3 10 perfNowRecast (0, none)
  match recastRun.2.2 with
  | none => .error "Recast navmesh generation failed"
  | some recastNav =>
      let navcatInput := (positions, indices)
      let navcatOptions := navcatOptionsOf options
      let navcatRun := benchmark "navcat generation"
          (fun st : ℕ × NavcatGenResult NHandle Inter =>
            (st.1 + 1, navcatGen navcatInput navcatOptions st.1))
          3 10 perfNowNavcat (0, ⟨none, none⟩)
      .ok ⟨navcatRun.2.2.navMesh, navcatRun.2.2.intermediates, navcatRun.1,
        recastNav, recastRun.1⟩

/-- The argument record of the single navcat pathfinding call
`navcat.findPath(navMesh, start, end, halfExtents, filter)` in
`verifyPaths` (lines 468-474). -/
structure NavcatQueryArgs (NHandle F : Type*) where
  navMesh : NHandle
  start : Vec3
  finish : Vec3
  halfExtents : Vec3
  filter : F

/-- The argument record of the single recast pathfinding call
`recastQuery.computePath(startPos, endPos)` in `verifyPaths` (line 505).
`halfExtentsOption` models the optional options argument of
`computePath` through which a search half-extents could be supplied; the
source passes no such argument, so the field is `none` there. -/
structure RecastQueryArgs where
  start : Vec3
  finish : Vec3
  halfExtentsOption : Option Vec3

/-- The `startPos` test coordinate of `verifyPaths` (line 453). -/
def verifyStartPos : Vec3 := (-3.94, 0.26, 4)

/-- The `endPos` test coordinate of `verifyPaths` (line 454). -/
def verifyEndPos : Vec3 := (2.52, 2.39, -2.2)

/-- The `halfExtents` search volume of `verifyPaths` (line 455). -/
def verifyHalfExtents : Vec3 := (1, 1, 1)

/-- The pathfinding core of `verifyPaths` (lines 445-534), with the scene
visualization stripped: the navcat backend is queried once via `findPath`
with the test coordinates, the half extents and the default query filter;
then the recast backend is queried once via `computePath` on a query
built from the recast handle, with the same start and end and no options
argument.  Both argument records are also returned as call logs (one
entry per performed call, in call order) alongside the two path
results. -/
def verifyPaths {NHandle RHandle F P : Type*}
    (navcatNav : NHandle) (recastNav : RHandle) (defaultQueryFilter : F)
    (findPath : NavcatQueryArgs NHandle F → Option P)
    (computePath : RHandle → RecastQueryArgs → List Vec3) :
    (List (NavcatQueryArgs NHandle F) × List RecastQueryArgs) × (Option P × List Vec3) :=
  let navcatArgs : NavcatQueryArgs NHandle F :=
    ⟨navcatNav, verifyStartPos, verifyEndPos, verifyHalfExtents, defaultQueryFilter⟩
  let navcatPath := findPath navcatArgs
  let recastArgs : RecastQueryArgs := ⟨verifyStartPos, verifyEndPos, none⟩
  let recastPath := computePath recastNav recastArgs
  (([navcatArgs], [recastArgs]), (navcatPath, recastPath))

/-- Clock oracle for the median witness: each even clock call returns 0
and the odd call closing iteration i returns the intended time of that
iteration, so the recorded series is `[1, 2, 3, 4]`. -/
def medianWitnessClock : ℕ → ℚ := fun k =>
  if k = 1 then 1 else if k = 3 then 2 else if k = 5 then 3 else if k = 7 then 4 else 0

/-- Clock oracle for the mean and standard-deviation witness: each even
clock call returns 0 and the odd calls return the intended iteration
times, so the recorded series is `[2, 4, 4, 4, 5, 5, 7, 9]`. -/
def stdDevWitnessClock : ℕ → ℚ := fun k =>
  if k = 1 then 2 else if k = 3 then 4 else if k = 5 then 4 else if k = 7 then 4
  else if k = 9 then 5 else if k = 11 then 5 else if k = 13 then 7
  else if k = 15 then 9 else 0

/-- Clock oracle for the min-max-median witness: the recorded series is
`[2, 1, 3]` (unsorted in execution order). -/
def minMaxWitnessClock : ℕ → ℚ := fun k =>
  if k = 1 then 2 else if k = 3 then 1 else if k = 5 then 3 else 0

/-- The invariant maintained by the traversal of
`gatherTrianglesFromScene`: the flat positions buffer holds three numbers
per counted vertex, every emitted index references a counted vertex, and
the indices emitted so far come in whole triangles. -/
def GatherInv (st : GatherState) : Prop :=
  st.positions.length = 3 * st.vertexOffset ∧
  (∀ e ∈ st.indices, e < st.vertexOffset) ∧
  st.indices.length % 3 = 0

/-- A scene whose single mesh carries one vertex and no index list: the
extractor synthesizes the lone index `[0]`, which is not a whole number
of triangles. -/
def gatherBadVertexScene : Obj :=
  Obj.mk (some ⟨[(0, 0, 0)], none, fun v => v⟩) []

/-- A scene whose single mesh carries three vertices but an explicit
index list referencing the nonexistent local vertex 5. -/
def gatherBadIndexScene : Obj :=
  Obj.mk (some ⟨[(0, 0, 0), (1, 0, 0), (0, 0, 1)], some [0, 1, 5], fun v => v⟩) []

/-- A well-formed two-mesh scene: one non-indexed triangle and one
explicitly indexed triangle. -/
def gatherGoodScene : Obj :=
  Obj.mk none
    [Obj.mk (some ⟨[(0, 0, 0), (1, 0, 0), (0, 0, 1)], none, fun v => v⟩) [],
      Obj.mk (some ⟨[(0, 0, 0), (2, 0, 0), (0, 0, 2)], some [0, 1, 2], fun v => v⟩) []]

/-- A concrete run of the generation harness in which the recast build
always yields a handle and the navcat build never yields a usable
navmesh handle (every invocation leaves the capture slot with no
navmesh). -/
noncomputable def genNavcatFailProbe : Except String (GenerationResults Unit Unit Unit) :=
  benchmarkGeneration [] [] createGenerationOptions
    (fun _ _ _ _ => some ())
    (fun _ _ _ => ⟨none, none⟩)
    (fun _ => 0) (fun _ => 0)

theorem warmupLoop_eq_iterate {σ : Type*} (fn : σ → σ) :
    ∀ (n : ℕ) (s : σ), warmupLoop fn n s = fn^[n] s := by
  intro n
  induction n with
  | zero => intro s; rfl
  | succ n ih =>
      intro s
      rw [warmupLoop, ih, Function.iterate_succ_apply]

theorem timedLoop_snd {σ : Type*} (fn : σ → σ) (perfNow : ℕ → ℚ) :
    ∀ (n i : ℕ) (s : σ), (timedLoop fn perfNow n i s).2 = fn^[n] s := by
  intro n
  induction n with
  | zero => intro i s; rfl
  | succ n ih =>
      intro i s
      rw [timedLoop, Function.iterate_succ_apply]
      exact ih (i + 1) (fn s)

theorem timedLoop_fst {σ : Type*} (fn : σ → σ) (perfNow : ℕ → ℚ) :
    ∀ (n i : ℕ) (s : σ),
      (timedLoop fn perfNow n i s).1 =
        (List.range n).map (fun k => perfNow (2 * (i + k) + 1) - perfNow (2 * (i + k))) := by
  intro n
  induction n with
  | zero => intro i s; rfl
  | succ n ih =>
      intro i s
      rw [timedLoop, List.range_succ_eq_map]
      simp only [List.map_cons, List.map_map]
      congr 1
      rw [ih (i + 1) (fn s)]
      apply List.map_congr_left
      intro k _
      have h2 : i + 1 + k = i + (k + 1) := by omega
      simp [Function.comp, Nat.succ_eq_add_one, h2]

theorem benchmark_times {σ : Type*} (name : String) (fn : σ → σ)
    (warmupRuns runs : ℕ) (perfNow : ℕ → ℚ) (s0 : σ) :
    (benchmark name fn warmupRuns runs perfNow s0).1.times =
      (List.range runs).map (fun k => perfNow (2 * k + 1) - perfNow (2 * k)) := by
  show (timedLoop fn perfNow runs 0 (warmupLoop fn warmupRuns s0)).1 = _
  rw [timedLoop_fst]
  simp

theorem benchmark_times_length {σ : Type*} (name : String) (fn : σ → σ)
    (warmupRuns runs : ℕ) (perfNow : ℕ → ℚ) (s0 : σ) :
    (benchmark name fn warmupRuns runs perfNow s0).1.times.length = runs := by
  rw [benchmark_times]
  simp

theorem benchmark_snd {σ : Type*} (name : String) (fn : σ → σ)
    (warmupRuns runs : ℕ) (perfNow : ℕ → ℚ) (s0 : σ) :
    (benchmark name fn warmupRuns runs perfNow s0).2 = fn^[warmupRuns + runs] s0 := by
  show (timedLoop fn perfNow runs 0 (warmupLoop fn warmupRuns s0)).2 = _
  rw [timedLoop_snd, warmupLoop_eq_iterate, ← Function.iterate_add_apply, Nat.add_comm]

theorem benchmark_median_eq {σ : Type*} (name : String) (fn : σ → σ)
    (warmupRuns runs : ℕ) (perfNow : ℕ → ℚ) (s0 : σ) :
    (benchmark name fn warmupRuns runs perfNow s0).1.median =
      jsIdx (sortNumbersAsc (benchmark name fn warmupRuns runs perfNow s0).1.times)
        (((sortNumbersAsc (benchmark name fn warmupRuns runs perfNow s0).1.times).length : ℤ) / 2) :=
  rfl

theorem benchmark_min_eq {σ : Type*} (name : String) (fn : σ → σ)
    (warmupRuns runs : ℕ) (perfNow : ℕ → ℚ) (s0 : σ) :
    (benchmark name fn warmupRuns runs perfNow s0).1.min =
      jsIdx (sortNumbersAsc (benchmark name fn warmupRuns runs perfNow s0).1.times) 0 :=
  rfl

theorem benchmark_max_eq {σ : Type*} (name : String) (fn : σ → σ)
    (warmupRuns runs : ℕ) (perfNow : ℕ → ℚ) (s0 : σ) :
    (benchmark name fn warmupRuns runs perfNow s0).1.max =
      jsIdx (sortNumbersAsc (benchmark name fn warmupRuns runs perfNow s0).1.times)
        (((sortNumbersAsc (benchmark name fn warmupRuns runs perfNow s0).1.times).length : ℤ) - 1) :=
  rfl

theorem benchmark_mean_eq {σ : Type*} (name : String) (fn : σ → σ)
    (warmupRuns runs : ℕ) (perfNow : ℕ → ℚ) (s0 : σ) :
    (benchmark name fn warmupRuns runs perfNow s0).1.mean =
      JSNum.div (.num ((benchmark name fn warmupRuns runs perfNow s0).1.times.foldl (· + ·) 0))
        (.num ((benchmark name fn warmupRuns runs perfNow s0).1.times.length : ℚ)) :=
  rfl

theorem benchmark_stdDev_eq {σ : Type*} (name : String) (fn : σ → σ)
    (warmupRuns runs : ℕ) (perfNow : ℕ → ℚ) (s0 : σ) :
    (benchmark name fn warmupRuns runs perfNow s0).1.stdDev =
      jsSqrt (JSNum.div
        ((benchmark name fn warmupRuns runs perfNow s0).1.times.foldl
          (fun sum t =>
            sum.add (((JSNum.num t).sub (benchmark name fn warmupRuns runs perfNow s0).1.mean).mul
              ((JSNum.num t).sub (benchmark name fn warmupRuns runs perfNow s0).1.mean)))
          (.num 0))
        (.num ((benchmark name fn warmupRuns runs perfNow s0).1.times.length : ℚ))) :=
  rfl

theorem sortNumbersAsc_perm (l : List ℚ) : List.Perm (sortNumbersAsc l) l :=
  List.perm_insertionSort _ l

theorem sortNumbersAsc_sorted (l : List ℚ) : (sortNumbersAsc l).Sorted (· ≤ ·) :=
  List.sorted_insertionSort _ l

theorem eq_sortNumbersAsc_of_perm_sorted {l t : List ℚ}
    (hp : List.Perm l t) (hs : l.Sorted (· ≤ ·)) : l = sortNumbersAsc t :=
  List.eq_of_perm_of_sorted (hp.trans (sortNumbersAsc_perm t).symm) hs (sortNumbersAsc_sorted t)

theorem jsIdx_natCast (l : List ℚ) (k : ℕ) (h : k < l.length) :
    jsIdx l (k : ℤ) = .num (l.get ⟨k, h⟩) := by
  simp only [jsIdx, Int.toNat_natCast]
  exact dif_pos ⟨Int.natCast_nonneg k, h⟩

theorem foldl_add_eq_sum (l : List ℚ) : ∀ a : ℚ, l.foldl (· + ·) a = a + l.sum := by
  induction l with
  | nil => intro a; simp
  | cons x xs ih => intro a; simp [ih, add_assoc]

theorem foldl_sq_add_eq_sum (m : ℚ) (l : List ℚ) : ∀ a : ℚ,
    l.foldl
      (fun sum t =>
        sum.add (((JSNum.num t).sub (JSNum.num m)).mul ((JSNum.num t).sub (JSNum.num m))))
      (JSNum.num a)
      = JSNum.num (a + (l.map (fun t => (t - m) ^ 2)).sum) := by
  induction l with
  | nil => intro a; simp
  | cons x xs ih =>
      intro a
      rw [show List.foldl
            (fun sum t =>
              sum.add (((JSNum.num t).sub (JSNum.num m)).mul ((JSNum.num t).sub (JSNum.num m))))
            (JSNum.num a) (x :: xs) =
          List.foldl
            (fun sum t =>
              sum.add (((JSNum.num t).sub (JSNum.num m)).mul ((JSNum.num t).sub (JSNum.num m))))
            (JSNum.num (a + (x - m) * (x - m))) xs from rfl]
      rw [ih]
      simp only [List.map_cons, List.sum_cons]
      congr 1
      ring

theorem sum_map_sq_nonneg (l : List ℚ) (m : ℚ) :
    0 ≤ (l.map (fun t => (t - m) ^ 2)).sum := by
  induction l with
  | nil => simp
  | cons x xs ih =>
      simp only [List.map_cons, List.sum_cons]
      exact add_nonneg (sq_nonneg _) ih

/-- C1: for every call of `benchmark` with `runs ≥ 1`, the `median` field
of the returned result is the element at index `floor(runs / 2)` of the
ascending-sorted copy of `times` (stated against any sorted permutation
`l` of the recorded `times`; in particular, for even `runs` it is the
upper-middle element, see the witness with `runs = 4`, `times = [1,2,3,4]`
and `median = 3`, not 2.5). -/
theorem benchmark_median_is_sorted_middle {σ : Type*} (name : String) (fn : σ → σ)
    (warmupRuns runs : ℕ) (perfNow : ℕ → ℚ) (s0 : σ)
    (hruns : 1 ≤ runs) (l : List ℚ)
    (hperm : List.Perm l (benchmark name fn warmupRuns runs perfNow s0).1.times)
    (hsort : l.Sorted (· ≤ ·)) :
    (benchmark name fn warmupRuns runs perfNow s0).1.median = jsIdx l ((runs : ℤ) / 2) := by
  have hl : l = sortNumbersAsc (benchmark name fn warmupRuns runs perfNow s0).1.times :=
    eq_sortNumbersAsc_of_perm_sorted hperm hsort
  have hlen : l.length = runs := by
    rw [hperm.length_eq, benchmark_times_length]
  rw [benchmark_median_eq, ← hl, hlen]

theorem benchmark_median_is_sorted_middle_witness :
    (benchmark "m" (fun u : Unit => u) 0 4 medianWitnessClock ()).1.median = JSNum.num 3 := by
  have ht : (benchmark "m" (fun u : Unit => u) 0 4 medianWitnessClock ()).1.times =
      [1, 2, 3, 4] := by
    rw [benchmark_times]
    norm_num [List.range_succ, medianWitnessClock]
  have h := benchmark_median_is_sorted_middle "m" (fun u : Unit => u) 0 4 medianWitnessClock ()
    (by norm_num) [1, 2, 3, 4] (ht ▸ List.Perm.refl _) (by norm_num [List.sorted_cons])
  rw [h]
  have h42 : (((4 : ℕ) : ℤ) / 2) = ((2 : ℕ) : ℤ) := by norm_num
  rw [h42, jsIdx_natCast _ 2 (by norm_num)]
  rfl

/-- C2: for every call of `benchmark` with `runs ≥ 1`, `mean` is the
arithmetic average of the unsorted execution-order series and `stdDev` is
the square root of the population variance (sum of squared deviations
from the mean divided by `runs`, not `runs - 1`) of that series; the
witness checks the worked example `times = [2,4,4,4,5,5,7,9]`, `mean = 5`,
`stdDev = 2`. -/
theorem benchmark_mean_stdDev_population {σ : Type*} (name : String) (fn : σ → σ)
    (warmupRuns runs : ℕ) (perfNow : ℕ → ℚ) (s0 : σ) (hruns : 1 ≤ runs) :
    (benchmark name fn warmupRuns runs perfNow s0).1.mean =
      JSNum.num ((benchmark name fn warmupRuns runs perfNow s0).1.times.sum / (runs : ℚ)) ∧
    (benchmark name fn warmupRuns runs perfNow s0).1.stdDev =
      JSRNum.num (Real.sqrt
        ((((benchmark name fn warmupRuns runs perfNow s0).1.times.map
            (fun t =>
              (t - (benchmark name fn warmupRuns runs perfNow s0).1.times.sum / (runs : ℚ)) ^ 2)).sum
          / (runs : ℚ) : ℚ) : ℝ)) := by
  have hlen : (benchmark name fn warmupRuns runs perfNow s0).1.times.length = runs :=
    benchmark_times_length name fn warmupRuns runs perfNow s0
  have hrne : ((runs : ℚ)) ≠ 0 := Nat.cast_ne_zero.mpr (by omega)
  have hmean : (benchmark name fn warmupRuns runs perfNow s0).1.mean =
      JSNum.num ((benchmark name fn warmupRuns runs perfNow s0).1.times.sum / (runs : ℚ)) := by
    rw [benchmark_mean_eq, foldl_add_eq_sum, hlen, zero_add]
    simp [JSNum.div, hrne]
  refine ⟨hmean, ?_⟩
  rw [benchmark_stdDev_eq, hmean, hlen, foldl_sq_add_eq_sum, zero_add]
  have hnn : 0 ≤ ((benchmark name fn warmupRuns runs perfNow s0).1.times.map
      (fun t =>
        (t - (benchmark name fn warmupRuns runs perfNow s0).1.times.sum / (runs : ℚ)) ^ 2)).sum /
      (runs : ℚ) :=
    div_nonneg (sum_map_sq_nonneg _ _) (by positivity)
  simp [JSNum.div, hrne, jsSqrt, not_lt.mpr hnn]

theorem benchmark_mean_stdDev_population_witness :
    (benchmark "m" (fun u : Unit => u) 3 8 stdDevWitnessClock ()).1.mean = JSNum.num 5 ∧
    (benchmark "m" (fun u : Unit => u) 3 8 stdDevWitnessClock ()).1.stdDev = JSRNum.num 2 := by
  have ht : (benchmark "m" (fun u : Unit => u) 3 8 stdDevWitnessClock ()).1.times =
      [2, 4, 4, 4, 5, 5, 7, 9] := by
    rw [benchmark_times]
    norm_num [List.range_succ, stdDevWitnessClock]
  have h := benchmark_mean_stdDev_population "m" (fun u : Unit => u) 3 8 stdDevWitnessClock ()
    (by norm_num)
  constructor
  · rw [h.1, ht]
    norm_num
  · rw [h.2, ht]
    have h4 : ((((([2, 4, 4, 4, 5, 5, 7, 9] : List ℚ).map
        (fun t => (t - ([2, 4, 4, 4, 5, 5, 7, 9] : List ℚ).sum / ((8 : ℕ) : ℚ)) ^ 2)).sum
        / ((8 : ℕ) : ℚ) : ℚ)) : ℝ) = 4 := by
      norm_num
    rw [h4]
    have h2 : (4 : ℝ) = 2 ^ 2 := by norm_num
    rw [h2, Real.sqrt_sq (by norm_num : (0 : ℝ) ≤ 2)]

/-- C3: for every call of `benchmark`, `fn` is invoked exactly
`warmupRuns + runs` times in total (the final state is the
`warmupRuns + runs`-fold iterate of `fn`, the first `warmupRuns`
invocations being the untimed warmup), the recorded `times` cover only
the `runs` timed invocations (one clock interval around each single
invocation), and `times` has length exactly `runs` regardless of
`warmupRuns`. -/
theorem benchmark_invocation_protocol {σ : Type*} (name : String) (fn : σ → σ)
    (warmupRuns runs : ℕ) (perfNow : ℕ → ℚ) (s0 : σ) :
    (benchmark name fn warmupRuns runs perfNow s0).2 = fn^[warmupRuns + runs] s0 ∧
    (benchmark name fn warmupRuns runs perfNow s0).1.times.length = runs ∧
    (benchmark name fn warmupRuns runs perfNow s0).1.times =
      (List.range runs).map (fun k => perfNow (2 * k + 1) - perfNow (2 * k)) :=
  ⟨benchmark_snd name fn warmupRuns runs perfNow s0,
    benchmark_times_length name fn warmupRuns runs perfNow s0,
    benchmark_times name fn warmupRuns runs perfNow s0⟩

/-- C4: for every call of `benchmark` with `runs ≥ 1`, `min` is the first
and `max` the last element of the ascending-sorted copy of `times`
(stated against any sorted permutation `l` of the recorded `times`), and
`min ≤ median ≤ max` holds for the produced `BenchmarkResult`. -/
theorem benchmark_min_max_bounds {σ : Type*} (name : String) (fn : σ → σ)
    (warmupRuns runs : ℕ) (perfNow : ℕ → ℚ) (s0 : σ)
    (hruns : 1 ≤ runs) (l : List ℚ)
    (hperm : List.Perm l (benchmark name fn warmupRuns runs perfNow s0).1.times)
    (hsort : l.Sorted (· ≤ ·)) :
    (benchmark name fn warmupRuns runs perfNow s0).1.min = jsIdx l 0 ∧
    (benchmark name fn warmupRuns runs perfNow s0).1.max = jsIdx l ((runs : ℤ) - 1) ∧
    ∃ a b c : ℚ,
      (benchmark name fn warmupRuns runs perfNow s0).1.min = JSNum.num a ∧
      (benchmark name fn warmupRuns runs perfNow s0).1.median = JSNum.num b ∧
      (benchmark name fn warmupRuns runs perfNow s0).1.max = JSNum.num c ∧
      a ≤ b ∧ b ≤ c := by
  have hl : l = sortNumbersAsc (benchmark name fn warmupRuns runs perfNow s0).1.times :=
    eq_sortNumbersAsc_of_perm_sorted hperm hsort
  have hlen : l.length = runs := by
    rw [hperm.length_eq, benchmark_times_length]
  have hmin : (benchmark name fn warmupRuns runs perfNow s0).1.min = jsIdx l 0 := by
    rw [benchmark_min_eq, ← hl]
  have hmax : (benchmark name fn warmupRuns runs perfNow s0).1.max =
      jsIdx l ((runs : ℤ) - 1) := by
    rw [benchmark_max_eq, ← hl, hlen]
  have hmed : (benchmark name fn warmupRuns runs perfNow s0).1.median =
      jsIdx l ((l.length : ℤ) / 2) := by
    rw [benchmark_median_eq, ← hl]
  have h0lt : 0 < l.length := by omega
  have hhalf : l.length / 2 < l.length := Nat.div_lt_self h0lt (by norm_num)
  have hlast : l.length - 1 < l.length := by omega
  refine ⟨hmin, hmax, l.get ⟨0, h0lt⟩, l.get ⟨l.length / 2, hhalf⟩,
    l.get ⟨l.length - 1, hlast⟩, ?_, ?_, ?_, ?_, ?_⟩
  · rw [hmin, show (0 : ℤ) = ((0 : ℕ) : ℤ) from rfl, jsIdx_natCast l 0 h0lt]
  · have emed : ((l.length : ℤ) / 2) = ((l.length / 2 : ℕ) : ℤ) := by
      rw [Int.natCast_div]
      norm_num
    rw [hmed, emed, jsIdx_natCast l (l.length / 2) hhalf]
  · have emax : ((runs : ℤ) - 1) = ((l.length - 1 : ℕ) : ℤ) := by omega
    rw [hmax, emax, jsIdx_natCast l (l.length - 1) hlast]
  · exact hsort.rel_get_of_le (Fin.mk_le_mk.mpr (Nat.zero_le _))
  · exact hsort.rel_get_of_le (Fin.mk_le_mk.mpr (Nat.le_pred_of_lt hhalf))

theorem benchmark_min_max_bounds_witness :
    (benchmark "m" (fun u : Unit => u) 1 3 minMaxWitnessClock ()).1.min =
      jsIdx [1, 2, 3] 0 ∧
    (benchmark "m" (fun u : Unit => u) 1 3 minMaxWitnessClock ()).1.max =
      jsIdx [1, 2, 3] (((3 : ℕ) : ℤ) - 1) ∧
    ∃ a b c : ℚ,
      (benchmark "m" (fun u : Unit => u) 1 3 minMaxWitnessClock ()).1.min = JSNum.num a ∧
      (benchmark "m" (fun u : Unit => u) 1 3 minMaxWitnessClock ()).1.median = JSNum.num b ∧
      (benchmark "m" (fun u : Unit => u) 1 3 minMaxWitnessClock ()).1.max = JSNum.num c ∧
      a ≤ b ∧ b ≤ c := by
  have ht : (benchmark "m" (fun u : Unit => u) 1 3 minMaxWitnessClock ()).1.times =
      [2, 1, 3] := by
    rw [benchmark_times]
    norm_num [List.range_succ, minMaxWitnessClock]
  exact benchmark_min_max_bounds "m" (fun u : Unit => u) 1 3 minMaxWitnessClock ()
    (by norm_num) [1, 2, 3] (by rw [ht]; exact List.Perm.swap 2 1 [3])
    (by norm_num [List.sorted_cons])

/-- C7: the unit adapter squares the canonical `minRegionArea` for
exactly one backend (navcat, whose option record receives the squared
area) and passes it unchanged to the other (recast); with the canonical
`minRegionArea = 8` of `createGenerationOptions`, navcat receives 64 and
recast receives 8. -/
theorem unit_adapter_region_area :
    (∀ o : GenerationOptions,
      (navcatOptionsOf o).minRegionArea = o.minRegionArea * o.minRegionArea ∧
      (recastOptionsOf o).minRegionArea = o.minRegionArea) ∧
    createGenerationOptions.minRegionArea = 8 ∧
    (navcatOptionsOf createGenerationOptions).minRegionArea = 64 ∧
    (recastOptionsOf createGenerationOptions).minRegionArea = 8 := by
  refine ⟨fun o => ⟨rfl, rfl⟩, rfl, ?_, rfl⟩
  show (8 : ℚ) * 8 = 64
  norm_num

/-- C10: calling `benchmark` with `runs = 0` still returns a result (the
embedding is total): `times` is empty, `mean` and `stdDev` are `NaN`
(the unguarded `0 / 0`), and `median`, `min` and `max` are `undefined`
(they index an empty sorted array), so the `runs ≥ 1` precondition is
what makes the statistics fields well-defined numbers. -/
theorem benchmark_zero_runs {σ : Type*} (name : String) (fn : σ → σ)
    (warmupRuns : ℕ) (perfNow : ℕ → ℚ) (s0 : σ) :
    (benchmark name fn warmupRuns 0 perfNow s0).1.times = [] ∧
    (benchmark name fn warmupRuns 0 perfNow s0).1.mean = JSNum.nan ∧
    (benchmark name fn warmupRuns 0 perfNow s0).1.stdDev = JSRNum.nan ∧
    (benchmark name fn warmupRuns 0 perfNow s0).1.median = JSNum.jsUndefined ∧
    (benchmark name fn warmupRuns 0 perfNow s0).1.min = JSNum.jsUndefined ∧
    (benchmark name fn warmupRuns 0 perfNow s0).1.max = JSNum.jsUndefined := by
  have ht : (benchmark name fn warmupRuns 0 perfNow s0).1.times = [] := by
    rw [benchmark_times]
    simp
  refine ⟨ht, ?_, ?_, ?_, ?_, ?_⟩
  · rw [benchmark_mean_eq, ht]
    simp [JSNum.div]
  · rw [benchmark_stdDev_eq, ht]
    simp [JSNum.div, jsSqrt]
  · rw [benchmark_median_eq, ht]
    simp [sortNumbersAsc, List.insertionSort, jsIdx]
  · rw [benchmark_min_eq, ht]
    simp [sortNumbersAsc, List.insertionSort, jsIdx]
  · rw [benchmark_max_eq, ht]
    simp [sortNumbersAsc, List.insertionSort, jsIdx]

/-- C8: for a scene of exactly two sibling mesh nodes, each carrying 3
vertices and no explicit index list, the extracted buffer has exactly 6
positions (18 flat coordinates) and indices `[0,1,2,3,4,5]`: absent
indices are synthesized as `0..vertexCount-1` and offset by the running
vertex count of previously visited meshes — for any vertex values and any
world transforms. -/
theorem gather_two_sibling_meshes (v1 v2 v3 v4 v5 v6 : Vec3) (t1 t2 : Vec3 → Vec3) :
    (gatherTrianglesFromScene (Obj.mk none
      [Obj.mk (some ⟨[v1, v2, v3], none, t1⟩) [],
        Obj.mk (some ⟨[v4, v5, v6], none, t2⟩) []])).2 = [0, 1, 2, 3, 4, 5] ∧
    (gatherTrianglesFromScene (Obj.mk none
      [Obj.mk (some ⟨[v1, v2, v3], none, t1⟩) [],
        Obj.mk (some ⟨[v4, v5, v6], none, t2⟩) []])).1.length = 6 * 3 :=
  ⟨rfl, rfl⟩

theorem length_flatten_map_triple (t : Vec3 → Vec3) (l : List Vec3) :
    ((l.map (fun v =>
      let w := t v
      [w.1, w.2.1, w.2.2])).flatten).length = 3 * l.length := by
  induction l with
  | nil => simp
  | cons x xs ih =>
      simp only [List.map_cons, List.flatten_cons, List.length_append, ih, List.length_cons]
      simp
      ring

theorem processMesh_inv (m : MeshData) (st : GatherState)
    (hm : meshWfB (some m) = true) (h : GatherInv st) : GatherInv (processMesh m st) := by
  obtain ⟨h1, h2, h3⟩ := h
  cases hidx : m.index with
  | some idx =>
      have hm2 : (∀ e ∈ idx, e < m.position.length) ∧ idx.length % 3 = 0 := by
        simpa [meshWfB, hidx, Bool.and_eq_true, List.all_eq_true,
          decide_eq_true_eq] using hm
      refine ⟨?_, ?_, ?_⟩
      · simp only [processMesh, List.length_append, h1, length_flatten_map_triple]
        ring
      · intro e he
        simp only [processMesh, hidx, List.mem_append, List.mem_map] at he
        rcases he with he | ⟨y, hy, rfl⟩
        · exact lt_of_lt_of_le (h2 e he) (Nat.le_add_right _ _)
        · have hyl := hm2.1 y hy
          have hoff : (processMesh m st).vertexOffset =
              st.vertexOffset + m.position.length := rfl
          omega
      · simp only [processMesh, hidx, List.length_append, List.length_map]
        omega
  | none =>
      have hm2 : m.position.length % 3 = 0 := by
        simpa [meshWfB, hidx, decide_eq_true_eq] using hm
      refine ⟨?_, ?_, ?_⟩
      · simp only [processMesh, List.length_append, h1, length_flatten_map_triple]
        ring
      · intro e he
        simp only [processMesh, hidx, List.mem_append, List.mem_map, List.mem_range] at he
        rcases he with he | ⟨y, hy, rfl⟩
        · exact lt_of_lt_of_le (h2 e he) (Nat.le_add_right _ _)
        · have hoff : (processMesh m st).vertexOffset =
              st.vertexOffset + m.position.length := rfl
          omega
      · simp only [processMesh, hidx, List.length_append, List.length_map, List.length_range]
        omega

theorem processNode_inv (meshData : Option MeshData) (st : GatherState)
    (hm : meshWfB meshData = true) (hinv : GatherInv st) :
    GatherInv (processNode meshData st) := by
  cases meshData with
  | none => exact hinv
  | some m => exact processMesh_inv m st hm hinv

mutual

theorem gatherObj_inv : ∀ (o : Obj) (st : GatherState),
    Obj.wfB o = true → GatherInv st → GatherInv (gatherObj o st)
  | .mk meshData children, st, hwf, hinv => by
      rw [gatherObj]
      have hm : meshWfB meshData = true ∧ Obj.wfListB children = true := by
        simpa [Obj.wfB, Bool.and_eq_true] using hwf
      exact gatherList_inv children _ hm.2 (processNode_inv meshData st hm.1 hinv)

theorem gatherList_inv : ∀ (l : List Obj) (st : GatherState),
    Obj.wfListB l = true → GatherInv st → GatherInv (gatherList l st)
  | [], _, _, hinv => by
      rw [gatherList]
      exact hinv
  | o :: os, st, hwf, hinv => by
      rw [gatherList]
      have hm : Obj.wfB o = true ∧ Obj.wfListB os = true := by
        simpa [Obj.wfListB, Bool.and_eq_true] using hwf
      exact gatherList_inv os _ hm.2 (gatherObj_inv o st hm.1 hinv)

end

/-- C9 counterexample: the claimed invariant does not hold for every
scene-graph input.  A non-indexed mesh with a single vertex yields the
index buffer `[0]` of length 1 (not a multiple of 3), and a mesh whose
explicit index list references local vertex 5 among 3 vertices yields an
index that is not smaller than the number of extracted positions. -/
theorem gather_invariant_counterexample :
    ¬ ((∀ e ∈ (gatherTrianglesFromScene gatherBadVertexScene).2,
          e < (gatherTrianglesFromScene gatherBadVertexScene).1.length / 3) ∧
        (gatherTrianglesFromScene gatherBadVertexScene).2.length % 3 = 0) ∧
    ¬ ((∀ e ∈ (gatherTrianglesFromScene gatherBadIndexScene).2,
          e < (gatherTrianglesFromScene gatherBadIndexScene).1.length / 3) ∧
        (gatherTrianglesFromScene gatherBadIndexScene).2.length % 3 = 0) := by
  constructor
  · intro h
    have h2 : (1 : ℕ) % 3 = 0 := h.2
    norm_num at h2
  · intro h
    have h5 : (5 : ℕ) < 9 / 3 := h.1 5 (by norm_num [gatherTrianglesFromScene,
      gatherBadIndexScene, gatherObj, gatherList, processNode, processMesh])
    norm_num at h5

/-- C9 (amended): for every scene graph whose mesh nodes are triangle
valid (`Obj.wfB`: explicit index lists reference existing local vertices
and have length a multiple of 3; non-indexed meshes have a vertex count
that is a multiple of 3), the extracted buffer satisfies the invariant:
every element of `indices` is strictly smaller than the number of
positions (`positions.length / 3`), and `indices.length` is a multiple
of 3.  (The unrestricted claim is false, see the counterexample: the
extractor does not defend against malformed mesh data.) -/
theorem gather_invariant_of_wf (o : Obj) (hwf : Obj.wfB o = true) :
    (∀ e ∈ (gatherTrianglesFromScene o).2,
      e < (gatherTrianglesFromScene o).1.length / 3) ∧
    (gatherTrianglesFromScene o).2.length % 3 = 0 := by
  have h := gatherObj_inv o ⟨[], [], 0⟩ hwf ⟨by simp, by simp, by simp⟩
  refine ⟨fun e he => ?_, h.2.2⟩
  have h2e : e < (gatherObj o ⟨[], [], 0⟩).vertexOffset := h.2.1 e he
  have h1 : (gatherTrianglesFromScene o).1.length =
      3 * (gatherObj o ⟨[], [], 0⟩).vertexOffset := h.1
  rw [h1, Nat.mul_div_cancel_left _ (by norm_num)]
  exact h2e

theorem gather_invariant_of_wf_witness :
    Obj.wfB gatherGoodScene = true ∧
    ((∀ e ∈ (gatherTrianglesFromScene gatherGoodScene).2,
        e < (gatherTrianglesFromScene gatherGoodScene).1.length / 3) ∧
      (gatherTrianglesFromScene gatherGoodScene).2.length % 3 = 0) :=
  ⟨rfl, gather_invariant_of_wf gatherGoodScene rfl⟩

/-- C5 (amended): in the path comparison harness, each backend's
pathfinding query is invoked exactly once — the call logs are singletons
— and the two invocations receive the identical start and end positions;
the search half-extents `(1, 1, 1)` is passed only to the navcat query
(together with the navmesh handle and the default query filter), while
the recast `computePath` call is made without an options argument and so
receives no half-extents.  (The original claim, that both invocations
receive identical `searchHalfExtents`, fails: see the counterexample.) -/
theorem verifyPaths_call_args {NHandle RHandle F P : Type*}
    (navcatNav : NHandle) (recastNav : RHandle) (defaultQueryFilter : F)
    (findPath : NavcatQueryArgs NHandle F → Option P)
    (computePath : RHandle → RecastQueryArgs → List Vec3) :
    (verifyPaths navcatNav recastNav defaultQueryFilter findPath computePath).1.1 =
      [⟨navcatNav, verifyStartPos, verifyEndPos, verifyHalfExtents, defaultQueryFilter⟩] ∧
    (verifyPaths navcatNav recastNav defaultQueryFilter findPath computePath).1.2 =
      [⟨verifyStartPos, verifyEndPos, none⟩] :=
  ⟨rfl, rfl⟩

/-- C5 counterexample: in a concrete run of the path comparison harness,
the single recast invocation carries no half-extents (its optional
half-extents slot is `none`), so the two invocations do not both receive
the identical `searchHalfExtents` — only the navcat invocation receives
`verifyHalfExtents`. -/
theorem verifyPaths_halfExtents_counterexample :
    ((verifyPaths () () () (fun _ => (none : Option Unit))
        (fun _ _ => ([] : List Vec3))).1.2.map RecastQueryArgs.halfExtentsOption) = [none] ∧
    ((verifyPaths () () () (fun _ => (none : Option Unit))
        (fun _ _ => ([] : List Vec3))).1.1.map
          (fun a => some a.halfExtents)) = [some verifyHalfExtents] ∧
    ([none] : List (Option Vec3)) ≠ [some verifyHalfExtents] := by
  refine ⟨rfl, rfl, ?_⟩
  simp

theorem counterStep_iterate {γ : Type*} (g : ℕ → γ) (x : γ) :
    ∀ n : ℕ, (fun st : ℕ × γ => (st.1 + 1, g st.1))^[n + 1] (0, x) = (n + 1, g n) := by
  intro n
  induction n with
  | zero => rfl
  | succ n ih =>
      rw [Function.iterate_succ_apply', ih]

/-- C6 (amended): the generation harness checks only the recast backend.
If the recast build entry point yields no usable handle after its final
(13th: 3 warmup + 10 measured) invocation, the harness aborts with the
generation error "Recast navmesh generation failed" before the navcat
benchmark runs; otherwise it returns successfully with whatever the
navcat build's final invocation produced — a navcat build yielding no
usable handle is not checked and does not abort the run.  (The original
claim, that this holds for either backend, fails: see the
counterexample.) -/
theorem benchmarkGeneration_checks_only_recast {NHandle Inter RHandle : Type*}
    (positions : List ℚ) (indices : List ℕ) (options : GenerationOptions)
    (recastGen : List ℚ → List ℕ → RecastOptions → ℕ → Option RHandle)
    (navcatGen : List ℚ × List ℕ → NavcatOptions → ℕ → NavcatGenResult NHandle Inter)
    (perfNowRecast perfNowNavcat : ℕ → ℚ) :
    benchmarkGeneration positions indices options recastGen navcatGen
        perfNowRecast perfNowNavcat =
      match recastGen positions indices (recastOptionsOf options) 12 with
      | none => Except.error "Recast navmesh generation failed"
      | some nav =>
          Except.ok
            ⟨(navcatGen (positions, indices) (navcatOptionsOf options) 12).navMesh,
              (navcatGen (positions, indices) (navcatOptionsOf options) 12).intermediates,
              (benchmark "navcat generation"
                (fun st : ℕ × NavcatGenResult NHandle Inter =>
                  (st.1 + 1, navcatGen (positions, indices) (navcatOptionsOf options) st.1))
                3 10 perfNowNavcat (0, ⟨none, none⟩)).1,
              nav,
              (benchmark "recast generation"
                (fun st : ℕ × Option RHandle =>
                  (st.1 + 1, recastGen positions indices (recastOptionsOf options) st.1))
                3 10 perfNowRecast (0, none)).1⟩ := by
  have h13 : (3 : ℕ) + 10 = 12 + 1 := by norm_num
  have hrec : (benchmark "recast generation"
      (fun st : ℕ × Option RHandle =>
        (st.1 + 1, recastGen positions indices (recastOptionsOf options) st.1))
      3 10 perfNowRecast (0, none)).2 =
      (13, recastGen positions indices (recastOptionsOf options) 12) := by
    rw [benchmark_snd, h13]
    exact counterStep_iterate _ _ 12
  have hnav : (benchmark "navcat generation"
      (fun st : ℕ × NavcatGenResult NHandle Inter =>
        (st.1 + 1, navcatGen (positions, indices) (navcatOptionsOf options) st.1))
      3 10 perfNowNavcat (0, ⟨none, none⟩)).2 =
      (13, navcatGen (positions, indices) (navcatOptionsOf options) 12) := by
    rw [benchmark_snd, h13]
    exact counterStep_iterate _ _ 12
  have hrec2 : (benchmark "recast generation"
      (fun st : ℕ × Option RHandle =>
        (st.1 + 1, recastGen positions indices (recastOptionsOf options) st.1))
      3 10 perfNowRecast (0, none)).2.2 =
      recastGen positions indices (recastOptionsOf options) 12 := by
    rw [hrec]
  have hnav2 : (benchmark "navcat generation"
      (fun st : ℕ × NavcatGenResult NHandle Inter =>
        (st.1 + 1, navcatGen (positions, indices) (navcatOptionsOf options) st.1))
      3 10 perfNowNavcat (0, ⟨none, none⟩)).2.2 =
      navcatGen (positions, indices) (navcatOptionsOf options) 12 := by
    rw [hnav]
  simp only [benchmarkGeneration]
  rw [hrec2, hnav2]

/-- C6 counterexample: when the navcat build entry point yields no usable
navmesh handle on every invocation (including the final one), the
generation harness does not report a generation error — it returns
successfully, with the unusable (absent) navcat handle in the result, and
the run continues.  The abort-on-missing-handle check therefore does not
hold for either backend, only for recast. -/
theorem benchmarkGeneration_navcat_unchecked_counterexample :
    genNavcatFailProbe.toOption.map (fun r => r.navcatNav) = some none := rfl
